import Mathlib

/-
  Verification of the Smart Factory Automation Supabase bridge server
  (src/python-middleware/server.py) against its natural-language design
  specification.

  Shallow embedding conventions:
  * JSON scalar values (the payloads sent by Packet Tracer MCUs are flat
    JSON objects of scalars) are modelled by `Value`; a Python dict is an
    association list `Bag` whose `get` returns `Value.null` for an absent
    key, exactly like Python's `dict.get` defaulting to `None`.
  * Python floats are modelled as rationals `ℚ`; the comparisons and
    literals appearing in the program (30.0, 15.0, one-decimal readings)
    are exact in both representations.
  * Python f-string alert messages are modelled by the inductive type
    `Msg` carrying the interpolated values: the program only ever compares
    messages for equality, never inspects their text.
  * The Supabase alert table is modelled by `AlertStore`: a list of rows
    plus the next fresh primary key.  Effectful handler methods become
    pure state transformers; the set of alert-table calls a request makes
    is reified as a `List StoreOp` trace.
-/

namespace SmartFactory

/-- A scalar JSON value as delivered by `json.loads` for the flat MCU
payloads (null, boolean, number, string). -/
inductive Value where
  | null : Value
  | bool (b : Bool) : Value
  | num (q : ℚ) : Value
  | str (s : String) : Value
  deriving DecidableEq

/-- Python truthiness (`bool(x)`): `None`, `0` and `""` are falsy. -/
def pyTruthy : Value → Bool
  | Value.null => false
  | Value.bool b => b
  | Value.num q => decide (q ≠ 0)
  | Value.str s => decide (s ≠ "")

/-- Python `==` on scalar values: numbers and booleans compare
numerically (`True == 1`), values of unrelated types are unequal. -/
def pyEqVal : Value → Value → Bool
  | Value.null, Value.null => true
  | Value.bool a, Value.bool b => decide (a = b)
  | Value.num a, Value.num b => decide (a = b)
  | Value.bool a, Value.num b => decide ((if a then (1 : ℚ) else 0) = b)
  | Value.num a, Value.bool b => decide (a = (if b then (1 : ℚ) else 0))
  | Value.str a, Value.str b => decide (a = b)
  | _, _ => false

/-- Python `str(x)` for the values that can reach `str()` in the server
(the rendering of numbers is only ever substring-tested against "FIRE"
and compared with "SAFE", which no digit string contains or equals, so
the exact numeral format is immaterial). -/
def pyStr : Value → String
  | Value.null => "None"
  | Value.bool true => "True"
  | Value.bool false => "False"
  | Value.num q => toString q
  | Value.str s => s

/-- Numeric view of a value for Python arithmetic comparison: `bool` is
an `int` subclass in Python, so `True` counts as 1; strings and `None`
have no numeric order against a float (comparing raises `TypeError`). -/
def pyNum : Value → Option ℚ
  | Value.num q => some q
  | Value.bool b => some (if b then 1 else 0)
  | _ => none

/-- Numeric value of a digit list, most significant first. -/
def digitsVal (ds : List Char) : Nat :=
  ds.foldl (fun a c => a * 10 + (c.toNat - 48)) 0

/-- Strip an optional leading sign, reporting whether it was `-`. -/
def parseSign : List Char → Bool × List Char
  | '+' :: r => (false, r)
  | '-' :: r => (true, r)
  | r => (false, r)

/-- A nonempty all-digit list. -/
def allDigits (ds : List Char) : Bool := !ds.isEmpty && ds.all Char.isDigit

/-- A whitespace character as stripped by Python `float()`. -/
def pyWhitespaceChar (c : Char) : Bool :=
  c == ' ' || c == '\t' || c == '\n' || c == '\r' || c == '\x0b' || c == '\x0c'

/-- Strip surrounding whitespace from a character list. -/
def trimChars (cs : List Char) : List Char :=
  ((cs.dropWhile pyWhitespaceChar).reverse.dropWhile pyWhitespaceChar).reverse

/-- Unsigned decimal mantissa — `digits`, `digits.digits`, `.digits` or
`digits.` with at least one digit overall — returned as the digit value
together with the length of the fractional part. -/
def parseMantissaParts (cs : List Char) : Option (Nat × Nat) :=
  let ip := cs.takeWhile Char.isDigit
  let rest := cs.dropWhile Char.isDigit
  match rest with
  | [] => if ip.isEmpty then none else some (digitsVal ip, 0)
  | '.' :: r2 =>
    let fp := r2.takeWhile Char.isDigit
    let r3 := r2.dropWhile Char.isDigit
    if r3.isEmpty then
      if ip.isEmpty && fp.isEmpty then none
      else some (digitsVal (ip ++ fp), fp.length)
    else none
  | _ => none

/-- Split a numeral at the first `e`/`E` exponent marker. -/
def splitMant (cs : List Char) : List Char × List Char :=
  (cs.takeWhile (fun c => c != 'e' && c != 'E'), cs.dropWhile (fun c => c != 'e' && c != 'E'))

/-- Assemble `± mantissaDigits · 10^(-fracLen) · 10^(±e)` as a rational
from its integer parts. -/
def ratOfParts (neg : Bool) (n : Nat) (fracLen : Nat) (eneg : Bool) (e : Nat) : ℚ :=
  let num : Int := if neg then -(n : Int) else (n : Int)
  if eneg then Rat.divInt num ((10 : Int) ^ (fracLen + e))
  else Rat.divInt (num * (10 : Int) ^ e) ((10 : Int) ^ fracLen)

/-- Models Python `float(s)` on a string: surrounding whitespace is
stripped, then an optional sign, a decimal mantissa and an optional
scientific exponent are accepted.  (`inf`/`nan`, which have no rational
counterpart, and digit-group underscores are treated as unparseable;
no payload in this system uses them.) -/
def parseFloat (s : String) : Option ℚ :=
  let cs := trimChars s.toList
  let (neg, r) := parseSign cs
  let (mant, expPart) := splitMant r
  match parseMantissaParts mant with
  | none => none
  | some (n, fracLen) =>
    match expPart with
    | [] => some (ratOfParts neg n fracLen false 0)
    | _ :: expTail =>
      let (eneg, er) := parseSign expTail
      if allDigits er then some (ratOfParts neg n fracLen eneg (digitsVal er)) else none

/-- Models Python `float(x)` under the server's
`except (ValueError, TypeError)` guards: numbers pass through, booleans
coerce to 0/1, strings are parsed, everything else (including `None`)
is "unparseable". -/
def pyFloat : Value → Option ℚ
  | Value.num q => some q
  | Value.bool b => some (if b then 1 else 0)
  | Value.str s => parseFloat s
  | Value.null => none

/-- A Python dict of scalar JSON values, as an association list. -/
abbrev Bag := List (String × Value)

/-- Exact dict lookup: distinguishes an absent key from a stored null. -/
def lookupBag : Bag → String → Option Value
  | [], _ => none
  | (k, v) :: r, key => if k = key then some v else lookupBag r key

/-- Python `d.get(k, dflt)`. -/
def pyGetD (d : Bag) (k : String) (dflt : Value) : Value := (lookupBag d k).getD dflt

/-- Python `d.get(k)` (default `None`). -/
def pyGet (d : Bag) (k : String) : Value := pyGetD d k Value.null

/-- The key set of a dict. -/
def bagKeys (d : Bag) : List String := d.map Prod.fst

/-- `motion_detected` coercion from `_map_telemetry_data`: a string is
compared with "DETECTED", anything else is boolean-cast. -/
def motionDetectedOf : Value → Bool
  | Value.str s => decide (s = "DETECTED")
  | v => pyTruthy v

/-- The HVAC temperature field assignment from `_map_telemetry_data`:
when the raw value reads as `None` (absent key or stored null) the key
is not assigned at all; otherwise `float(...)` is attempted and a parse
failure stores an explicit null. -/
def hvacTempField : Value → Bag
  | Value.null => []
  | v =>
    match pyFloat v with
    | some q => [("temperature", Value.num q)]
    | none => [("temperature", Value.null)]

/-- `FactoryBridgeHandler._map_telemetry_data`: dispatch on the subsystem
identifier (an arbitrary payload value compared against the seven known
names, as Python `==` does) and project the raw field bag onto the
subsystem's canonical schema. -/
def mapTelemetryData (ptData : Bag) (systemName : Value) : Bag :=
  if pyEqVal systemName (Value.str "Fire_Control") then
    [("fire_sensor_val", pyGet ptData "sensor_value"),
     ("fire_status", pyGet ptData "status"),
     ("siren_state", Value.str (if pyEqVal (pyGet ptData "siren") (Value.num 1) then "ON" else "OFF")),
     ("sprinkler_state", Value.str (if pyEqVal (pyGet ptData "sprinkler") (Value.num 1) then "ON" else "OFF"))]
  else if pyEqVal systemName (Value.str "Conveyor_Belt") then
    [("order_count", pyGet ptData "order_count"),
     ("conveyor_speed", pyGet ptData "sensor_value"),
     ("conveyor_status", pyGet ptData "status")]
  else if pyEqVal systemName (Value.str "Weight_System") then
    [("weight_grams", pyGet ptData "weight_val"),
     ("weight_status", pyGet ptData "status"),
     ("servo_angle", pyGet ptData "servo_pos")]
  else if pyEqVal systemName (Value.str "Garage_Door") then
    [("motion_detected", Value.bool (motionDetectedOf (pyGet ptData "motion_status"))),
     ("garage_door", pyGet ptData "door_state")]
  else if pyEqVal systemName (Value.str "Battery_System") then
    [("battery_level", pyGet ptData "battery_level"),
     ("led_brightness", pyGet ptData "led_intensity")]
  else if pyEqVal systemName (Value.str "HVAC_System") then
    hvacTempField (pyGet ptData "temperature") ++
    [("ac_state", pyGet ptData "ac_status"),
     ("ac2_state", pyGet ptData "ac2_status"),
     ("furnace_state", pyGet ptData "furnace_status")]
  else if pyEqVal systemName (Value.str "Safe_Room") then
    [("rfid_last_card", pyGet ptData "last_card"),
     ("access_log", pyGet ptData "access"),
     ("safe_door", pyGet ptData "door"),
     ("webcam_status", pyGet ptData "webcam")]
  else []

/-- The seven subsystem identifiers `_map_telemetry_data` recognizes. -/
def recognizedSubsystem (systemName : Value) : Bool :=
  pyEqVal systemName (Value.str "Fire_Control") ||
  pyEqVal systemName (Value.str "Conveyor_Belt") ||
  pyEqVal systemName (Value.str "Weight_System") ||
  pyEqVal systemName (Value.str "Garage_Door") ||
  pyEqVal systemName (Value.str "Battery_System") ||
  pyEqVal systemName (Value.str "HVAC_System") ||
  pyEqVal systemName (Value.str "Safe_Room")

/-- The canonical field set of each recognized subsystem (§4.1 of the
design; exactly the keys its `_map_telemetry_data` branch can assign). -/
def canonicalFields (systemName : Value) : List String :=
  if pyEqVal systemName (Value.str "Fire_Control") then
    ["fire_sensor_val", "fire_status", "siren_state", "sprinkler_state"]
  else if pyEqVal systemName (Value.str "Conveyor_Belt") then
    ["order_count", "conveyor_speed", "conveyor_status"]
  else if pyEqVal systemName (Value.str "Weight_System") then
    ["weight_grams", "weight_status", "servo_angle"]
  else if pyEqVal systemName (Value.str "Garage_Door") then
    ["motion_detected", "garage_door"]
  else if pyEqVal systemName (Value.str "Battery_System") then
    ["battery_level", "led_brightness"]
  else if pyEqVal systemName (Value.str "HVAC_System") then
    ["temperature", "ac_state", "ac2_state", "furnace_state"]
  else if pyEqVal systemName (Value.str "Safe_Room") then
    ["rfid_last_card", "access_log", "safe_door", "webcam_status"]
  else []

/-- Module-level configuration `ALERT_THRESHOLDS` from server.py. -/
structure Thresholds where
  temperature_high : ℚ
  temperature_low : ℚ
  battery_low : ℚ
  fire_detected : Bool
  deriving DecidableEq

/-- `ALERT_THRESHOLDS = {temperature_high: 30.0, temperature_low: 15.0,
battery_low: 15.0, fire_detected: True}`. -/
def ALERT_THRESHOLDS : Thresholds := ⟨30, 15, 15, true⟩

/-- `DEFAULT_FACTORY = "factory_1"`. -/
def DEFAULT_FACTORY : String := "factory_1"

/-- `FACTORY_MAPPING.get(factory_id)`: the dict keys are the strings
"factory_1" and "factory_2", so only those string values hit. -/
def factoryMappingGet (factoryId : Value) : Option String :=
  if factoryId = Value.str "factory_1" then some "factory_1_data"
  else if factoryId = Value.str "factory_2" then some "factory_2_data"
  else none

/-- `{"factory_1": 1, "factory_2": 2}.get(factory_id)` — the factory
primary-key lookup used by both `_insert_to_supabase` and
`_check_and_create_alerts`. -/
def factoryLookupPk (factoryId : Value) : Option Nat :=
  if factoryId = Value.str "factory_1" then some 1
  else if factoryId = Value.str "factory_2" then some 2
  else none

/-- An alert message: one constructor per f-string in server.py, carrying
the interpolated values.  The program only compares messages for
equality, so the literal text surrounding the interpolations is not
observable and is elided. -/
inductive Msg where
  | fire (sensorVal : Value) : Msg
  | highTemp (t : ℚ) (acState : Value) : Msg
  | lowTemp (t : ℚ) (furnaceState : Value) : Msg
  | lowBattery (b : ℚ) (led : Value) : Msg
  | unauthorized (cardId : Value) : Msg
  deriving DecidableEq

/-- One call against the `system_alerts` table made while processing a
telemetry record: `_create_unique_alert`, `_auto_acknowledge_alert`, or
the unconditional `insert` used for UNAUTHORIZED_ACCESS. -/
inductive StoreOp where
  | createUnique (factoryPk : Nat) (alertType severity : String) (message : Msg) (systemName : Value) : StoreOp
  | autoAck (factoryPk : Nat) (systemName : Value) (alertType : String) : StoreOp
  | insertAlways (factoryPk : Nat) (alertType severity : String) (message : Msg) (systemName : Value) : StoreOp
  deriving DecidableEq

/-- The alert type named by a store operation. -/
def opType : StoreOp → String
  | StoreOp.createUnique _ t _ _ _ => t
  | StoreOp.autoAck _ _ t => t
  | StoreOp.insertAlways _ t _ _ _ => t

/-- ASCII upper-casing of one character (what Python `str.upper` does on
the ASCII statuses this system exchanges). -/
def upperChar (c : Char) : Char :=
  if decide ('a' ≤ c) && decide (c ≤ 'z') then Char.ofNat (c.toNat - 32) else c

/-- ASCII upper-casing of a string. -/
def upperStr (s : String) : String := (s.toList.map upperChar).asString

/-- `str(telemetry.get("fire_status", "")).upper()`. -/
def fireStatusOf (telemetry : Bag) : String :=
  upperStr (pyStr (pyGetD telemetry "fire_status" (Value.str "")))

/-- Character-list prefix test (first argument is the pattern). -/
def listStartsWith : List Char → List Char → Bool
  | [], _ => true
  | _ :: _, [] => false
  | a :: as, b :: bs => a == b && listStartsWith as bs

/-- Character-list contiguous-subsequence test. -/
def listContainsSeq (pat : List Char) : List Char → Bool
  | [] => pat.isEmpty
  | c :: rest => listStartsWith pat (c :: rest) || listContainsSeq pat rest

/-- Python substring containment `needle in hay`. -/
def pyInStr (needle hay : String) : Bool := listContainsSeq needle.toList hay.toList

/-- The fire-detection block of `_check_and_create_alerts`: assert
FIRE_DETECTED when the upper-cased status contains "FIRE" and is not
"SAFE", otherwise auto-acknowledge it. -/
def fireOps (telemetry : Bag) (pk : Nat) (systemName : Value) : List StoreOp :=
  let fs := fireStatusOf telemetry
  if pyInStr "FIRE" fs && !(fs == "SAFE") then
    [StoreOp.createUnique pk "FIRE_DETECTED" "CRITICAL"
      (Msg.fire (pyGetD telemetry "fire_sensor_val" (Value.str "N/A"))) systemName]
  else
    [StoreOp.autoAck pk systemName "FIRE_DETECTED"]

/-- The temperature block of `_check_and_create_alerts`: the reading is
re-coerced with `float(...)` (a `None`, absent, or unparseable reading
skips the whole block), then compared against the thresholds. -/
def tempOps (telemetry : Bag) (pk : Nat) (systemName : Value) : List StoreOp :=
  match pyFloat (pyGet telemetry "temperature") with
  | none => []
  | some t =>
    if t > ALERT_THRESHOLDS.temperature_high then
      [StoreOp.createUnique pk "HIGH_TEMPERATURE" "WARNING"
        (Msg.highTemp t (pyGetD telemetry "ac_state" (Value.str "N/A"))) systemName]
    else if t < ALERT_THRESHOLDS.temperature_low then
      [StoreOp.createUnique pk "LOW_TEMPERATURE" "WARNING"
        (Msg.lowTemp t (pyGetD telemetry "furnace_state" (Value.str "N/A"))) systemName]
    else
      [StoreOp.autoAck pk systemName "HIGH_TEMPERATURE",
       StoreOp.autoAck pk systemName "LOW_TEMPERATURE"]

/-- The unauthorized-access block of `_check_and_create_alerts`: a
"DENIED" access log unconditionally inserts a fresh alert row. -/
def accessOps (telemetry : Bag) (pk : Nat) (systemName : Value) : List StoreOp :=
  if pyEqVal (pyGet telemetry "access_log") (Value.str "DENIED") then
    [StoreOp.insertAlways pk "UNAUTHORIZED_ACCESS" "WARNING"
      (Msg.unauthorized (pyGetD telemetry "rfid_last_card" (Value.str "Unknown"))) systemName]
  else []

/-- The battery block followed by the access block: `if battery:` skips
both alert paths for a falsy (absent, null, or zero) level; a truthy
non-numeric level makes `battery < 15.0` raise `TypeError`, which the
method-wide handler catches, so the access check is skipped too. -/
def batteryAccessOps (telemetry : Bag) (pk : Nat) (systemName : Value) : List StoreOp :=
  let bv := pyGet telemetry "battery_level"
  if pyTruthy bv then
    match pyNum bv with
    | none => []
    | some b =>
      (if b < ALERT_THRESHOLDS.battery_low then
        [StoreOp.createUnique pk "LOW_BATTERY" "WARNING"
          (Msg.lowBattery b (pyGetD telemetry "led_brightness" (Value.str "N/A"))) systemName]
      else
        [StoreOp.autoAck pk systemName "LOW_BATTERY"]) ++ accessOps telemetry pk systemName
  else accessOps telemetry pk systemName

/-- `FactoryBridgeHandler._check_and_create_alerts` as the trace of
alert-table operations it performs: an unknown factory key returns
before any rule is evaluated. -/
def checkAndCreateAlerts (telemetry : Bag) (factoryId : Value) (systemName : Value) : List StoreOp :=
  match factoryLookupPk factoryId with
  | none => []
  | some pk =>
    fireOps telemetry pk systemName ++ tempOps telemetry pk systemName ++
      batteryAccessOps telemetry pk systemName

/-- A persisted row of the `system_alerts` table. -/
structure AlertRecord where
  id : Nat
  factory_id : Nat
  alert_type : String
  severity : String
  message : Msg
  system_name : Value
  acknowledged : Bool
  created_at : Nat
  acknowledged_at : Option Nat
  acknowledged_by : Option String
  deriving DecidableEq

/-- The `system_alerts` table: its rows plus the next fresh primary key.
Database column defaults: a freshly inserted alert is unacknowledged and
stamped with the insertion time. -/
structure AlertStore where
  rows : List AlertRecord
  nextId : Nat
  deriving DecidableEq

def emptyStore : AlertStore := ⟨[], 0⟩

/-- The row filter used by both `_create_unique_alert`'s lookup and
`_auto_acknowledge_alert`'s update: same factory, subsystem and alert
type, and not yet acknowledged. -/
def matchesOpen (pk : Nat) (systemName : Value) (alertType : String) (r : AlertRecord) : Bool :=
  decide (r.factory_id = pk) && decide (r.system_name = systemName) &&
    decide (r.alert_type = alertType) && decide (r.acknowledged = false)

/-- `supabase.table("system_alerts").insert({...})`: append a fresh open
row. -/
def insertAlert (s : AlertStore) (now : Nat) (pk : Nat) (alertType severity : String)
    (message : Msg) (systemName : Value) : AlertStore :=
  ⟨s.rows ++ [⟨s.nextId, pk, alertType, severity, message, systemName, false, now, none, none⟩],
   s.nextId + 1⟩

/-- `FactoryBridgeHandler._create_unique_alert`: look up the open alerts
for the tuple; none → insert; some with a different message → update
that row's message and creation timestamp in place; same message → no
write. -/
def createUniqueAlert (s : AlertStore) (now : Nat) (pk : Nat) (alertType severity : String)
    (message : Msg) (systemName : Value) : AlertStore :=
  match s.rows.filter (matchesOpen pk systemName alertType) with
  | [] => insertAlert s now pk alertType severity message systemName
  | r :: _ =>
    if r.message ≠ message then
      ⟨s.rows.map (fun x => if x.id = r.id then { x with message := message, created_at := now } else x),
       s.nextId⟩
    else s

/-- `FactoryBridgeHandler._auto_acknowledge_alert`: mark every matching
open row acknowledged by AUTO_RESOLVED. -/
def autoAcknowledgeAlert (s : AlertStore) (now : Nat) (pk : Nat) (systemName : Value)
    (alertType : String) : AlertStore :=
  ⟨s.rows.map (fun x =>
      if matchesOpen pk systemName alertType x then
        { x with acknowledged := true, acknowledged_at := some now,
                 acknowledged_by := some "AUTO_RESOLVED" }
      else x),
   s.nextId⟩

/-- Execute one alert-table operation. -/
def applyOp (s : AlertStore) (now : Nat) : StoreOp → AlertStore
  | StoreOp.createUnique pk t sev m sys => createUniqueAlert s now pk t sev m sys
  | StoreOp.autoAck pk sys t => autoAcknowledgeAlert s now pk sys t
  | StoreOp.insertAlways pk t sev m sys => insertAlert s now pk t sev m sys

/-- Execute a trace of alert-table operations in order. -/
def applyOps (s : AlertStore) (now : Nat) : List StoreOp → AlertStore
  | [] => s
  | op :: rest => applyOps (applyOp s now op) now rest

/-- The HTTP response body written by `do_POST`. -/
inductive RespBody where
  | success : RespBody
  | error (message : String) : RespBody
  deriving DecidableEq

/-- The observable outcome of one `do_POST` on an already-parsed JSON
payload: routing decisions, the mapped record, whether and where it was
persisted, whether the factory's last-seen timestamp was touched,
whether `_check_and_create_alerts` ran and the alert-table operations it
issued, and the HTTP response. -/
structure PostOutcome where
  system_name : Value
  factory_id : Value
  table_name : String
  telemetry : Bag
  persisted : Bool
  lastSeenUpdated : Option Nat
  alertEvalAttempted : Bool
  alertOps : List StoreOp
  status : Nat
  body : RespBody
  deriving DecidableEq

/-- `FactoryBridgeHandler.do_POST` on a successfully parsed payload.
`dbOk` is the storage oracle: whether the Supabase calls inside
`_insert_to_supabase` succeed (its `except` turns a storage fault into a
`False` return with no last-seen update).  `nowStr` is the ingestion
timestamp string. -/
def doPost (ptData : Bag) (dbOk : Bool) (nowStr : String) : PostOutcome :=
  let systemName := pyGetD ptData "system" (Value.str "Unknown")
  let factoryId := pyGetD ptData "factory" (Value.str DEFAULT_FACTORY)
  let tableName := (factoryMappingGet factoryId).getD "factory_1_data"
  let telemetry := mapTelemetryData ptData systemName
  if telemetry = [] then
    ⟨systemName, factoryId, tableName, telemetry, false, none, false, [], 200, RespBody.success⟩
  else
    let telemetry2 := telemetry ++ [("system_name", systemName), ("timestamp", Value.str nowStr)]
    if dbOk then
      ⟨systemName, factoryId, tableName, telemetry2, true, factoryLookupPk factoryId, true,
       checkAndCreateAlerts telemetry2 factoryId systemName, 200, RespBody.success⟩
    else
      ⟨systemName, factoryId, tableName, telemetry2, false, none, false, [], 200, RespBody.success⟩

/-- Does a store operation assert (create or refresh an open alert of)
the given type with the given severity? -/
def opAssertsTypeSev (t sev : String) : StoreOp → Bool
  | StoreOp.createUnique _ ty s _ _ => decide (ty = t) && decide (s = sev)
  | StoreOp.insertAlways _ ty s _ _ => decide (ty = t) && decide (s = sev)
  | StoreOp.autoAck _ _ _ => false

/-- Does a store operation assert the given alert type (any severity)? -/
def opAssertsType (t : String) : StoreOp → Bool
  | StoreOp.createUnique _ ty _ _ _ => decide (ty = t)
  | StoreOp.insertAlways _ ty _ _ _ => decide (ty = t)
  | StoreOp.autoAck _ _ _ => false

/-- Does a store operation clear (auto-acknowledge) the given type? -/
def opClearsType (t : String) : StoreOp → Bool
  | StoreOp.autoAck _ _ ty => decide (ty = t)
  | StoreOp.createUnique _ _ _ _ _ => false
  | StoreOp.insertAlways _ _ _ _ _ => false

/-- Some operation of the trace asserts the type with the severity. -/
def assertsTypeSev (ops : List StoreOp) (t sev : String) : Bool :=
  ops.any (opAssertsTypeSev t sev)

/-- Some operation of the trace asserts the type. -/
def assertsType (ops : List StoreOp) (t : String) : Bool := ops.any (opAssertsType t)

/-- Some operation of the trace clears the type. -/
def clearsType (ops : List StoreOp) (t : String) : Bool := ops.any (opClearsType t)

/-- The trace touches the type at all (assert or clear). -/
def mentionsType (ops : List StoreOp) (t : String) : Bool :=
  assertsType ops t || clearsType ops t

/-- Number of unacknowledged alert rows for one
(factory, subsystem, alert type) tuple. -/
def openCount (s : AlertStore) (pk : Nat) (sys : Value) (t : String) : Nat :=
  (s.rows.filter (matchesOpen pk sys t)).length

/-- Number of alert rows (acknowledged or not) for one
(factory, subsystem, alert type) tuple. -/
def typeRowCount (s : AlertStore) (pk : Nat) (sys : Value) (t : String) : Nat :=
  (s.rows.filter (fun r =>
    decide (r.factory_id = pk) && decide (r.system_name = sys) &&
      decide (r.alert_type = t))).length

/-- The central dedup invariant (§3 of the design): at most one open
alert per (factory, subsystem, alert type) tuple, for every type other
than the exempt UNAUTHORIZED_ACCESS. -/
def StoreInv (s : AlertStore) : Prop :=
  ∀ pk sys t, t ≠ "UNAUTHORIZED_ACCESS" → openCount s pk sys t ≤ 1

/-- Operations the server can issue: the unconditional-insert path is
used exclusively for UNAUTHORIZED_ACCESS alerts. -/
def opOK : StoreOp → Bool
  | StoreOp.insertAlways _ ty _ _ _ => decide (ty = "UNAUTHORIZED_ACCESS")
  | StoreOp.createUnique _ _ _ _ _ => true
  | StoreOp.autoAck _ _ _ => true

end SmartFactory

namespace SmartFactory

section ListLemmas

/-- Filter length is unchanged by mapping a function that preserves the
predicate. -/
theorem length_filter_map_eq {α : Type} (p : α → Bool) (f : α → α)
    (h : ∀ x, p (f x) = p x) :
    ∀ l : List α, ((l.map f).filter p).length = (l.filter p).length := by
  intro l
  induction l with
  | nil => rfl
  | cons a l ih =>
    simp only [List.map_cons, List.filter_cons, h a]
    cases hp : p a <;> simp [ih]

/-- Filter length cannot grow under a map that never turns the predicate
on. -/
theorem length_filter_map_le {α : Type} (p : α → Bool) (f : α → α)
    (h : ∀ x, p (f x) = true → p x = true) :
    ∀ l : List α, ((l.map f).filter p).length ≤ (l.filter p).length := by
  intro l
  induction l with
  | nil => exact Nat.le_refl _
  | cons a l ih =>
    simp only [List.map_cons, List.filter_cons]
    cases hpf : p (f a) with
    | true =>
      rw [h a hpf]
      simpa using ih
    | false =>
      cases hp : p a <;> simp [ih, Nat.le_succ_of_le]

end ListLemmas

section MapperTheorems

/-- Reduction of the mapper at the HVAC_System branch. -/
theorem map_hvac (raw : Bag) :
    mapTelemetryData raw (Value.str "HVAC_System") =
      hvacTempField (pyGet raw "temperature") ++
        [("ac_state", pyGet raw "ac_status"),
         ("ac2_state", pyGet raw "ac2_status"),
         ("furnace_state", pyGet raw "furnace_status")] := rfl

/-- The HVAC temperature assignment touches only the "temperature" key. -/
theorem bagKeys_hvacTempField (v : Value) : bagKeys (hvacTempField v) ⊆ ["temperature"] := by
  cases v with
  | null => simp [hvacTempField, bagKeys]
  | bool b => cases h : pyFloat (Value.bool b) <;> simp [hvacTempField, bagKeys, h]
  | num q => cases h : pyFloat (Value.num q) <;> simp [hvacTempField, bagKeys, h]
  | str s => cases h : pyFloat (Value.str s) <;> simp [hvacTempField, bagKeys, h]

/-- Claim C8 — counterexample.  Mapping an HVAC payload whose raw bag has
no temperature key (here only an AC status) leaves the canonical
"temperature" field entirely absent from the record, not set to null as
the claim states. -/
theorem hvac_absent_temperature_cex :
    lookupBag (mapTelemetryData [("ac_status", Value.str "ON")] (Value.str "HVAC_System"))
        "temperature" ≠ some Value.null ∧
    lookupBag (mapTelemetryData [("ac_status", Value.str "ON")] (Value.str "HVAC_System"))
        "temperature" = none := by decide

/-- Claim C8 (amended): for every HVAC_System payload the mapper never
raises; a present, non-null, unparseable temperature stores an explicit
null; a present parseable one stores the parsed float; an absent (or
null) raw temperature leaves the canonical field unassigned — it merely
reads as null through `dict.get`. -/
theorem hvac_temperature_mapping (raw : Bag) :
    (pyGet raw "temperature" = Value.null →
      lookupBag (mapTelemetryData raw (Value.str "HVAC_System")) "temperature" = none) ∧
    (∀ v, pyGet raw "temperature" = v → v ≠ Value.null → pyFloat v = none →
      lookupBag (mapTelemetryData raw (Value.str "HVAC_System")) "temperature"
        = some Value.null) ∧
    (∀ v q, pyGet raw "temperature" = v → pyFloat v = some q →
      lookupBag (mapTelemetryData raw (Value.str "HVAC_System")) "temperature"
        = some (Value.num q)) := by
  refine ⟨fun h => ?_, fun v hv hvn hfl => ?_, fun v q hv hfl => ?_⟩
  · rw [map_hvac, h]
    rfl
  · rw [map_hvac, hv]
    cases v with
    | null => exact absurd rfl hvn
    | bool b => simp [pyFloat] at hfl
    | num q => simp [pyFloat] at hfl
    | str s => simp [hvacTempField, hfl, lookupBag]
  · rw [map_hvac, hv]
    cases v with
    | null => simp [pyFloat] at hfl
    | bool b =>
      simp [pyFloat] at hfl
      simp [hvacTempField, pyFloat, hfl, lookupBag]
    | num q' =>
      simp [pyFloat] at hfl
      simp [hvacTempField, pyFloat, hfl, lookupBag]
    | str s => simp [hvacTempField, hfl, lookupBag]

/-- Claim C8 — witness for the amended theorem at concrete inputs. -/
theorem hvac_temperature_mapping_witness :
    lookupBag (mapTelemetryData [("temperature", Value.str "not-a-number")]
        (Value.str "HVAC_System")) "temperature" = some Value.null ∧
    lookupBag (mapTelemetryData [("temperature", Value.str "21.5")]
        (Value.str "HVAC_System")) "temperature" = some (Value.num (Rat.divInt 43 2)) :=
  ⟨(hvac_temperature_mapping [("temperature", Value.str "not-a-number")]).2.1
      (Value.str "not-a-number") rfl (by decide) (by decide),
   (hvac_temperature_mapping [("temperature", Value.str "21.5")]).2.2
      (Value.str "21.5") (Rat.divInt 43 2) rfl (by decide)⟩

/-- Claim C9: the mapper is total — on each of the seven recognized
subsystem identifiers it returns a record whose keys form a subset of
that subsystem's canonical field set, and on any other identifier it
returns the empty mapping. -/
theorem mapper_total_subset (systemName : Value) (raw : Bag) :
    (recognizedSubsystem systemName = true →
      bagKeys (mapTelemetryData raw systemName) ⊆ canonicalFields systemName) ∧
    (recognizedSubsystem systemName = false → mapTelemetryData raw systemName = []) := by
  by_cases h1 : pyEqVal systemName (Value.str "Fire_Control") = true
  · constructor
    · intro _
      simp [mapTelemetryData, canonicalFields, h1, bagKeys]
    · intro hr
      simp [recognizedSubsystem, h1] at hr
  · by_cases h2 : pyEqVal systemName (Value.str "Conveyor_Belt") = true
    · constructor
      · intro _
        simp [mapTelemetryData, canonicalFields, h1, h2, bagKeys]
      · intro hr
        simp [recognizedSubsystem, h2] at hr
    · by_cases h3 : pyEqVal systemName (Value.str "Weight_System") = true
      · constructor
        · intro _
          simp [mapTelemetryData, canonicalFields, h1, h2, h3, bagKeys]
        · intro hr
          simp [recognizedSubsystem, h3] at hr
      · by_cases h4 : pyEqVal systemName (Value.str "Garage_Door") = true
        · constructor
          · intro _
            simp [mapTelemetryData, canonicalFields, h1, h2, h3, h4, bagKeys]
          · intro hr
            simp [recognizedSubsystem, h4] at hr
        · by_cases h5 : pyEqVal systemName (Value.str "Battery_System") = true
          · constructor
            · intro _
              simp [mapTelemetryData, canonicalFields, h1, h2, h3, h4, h5, bagKeys]
            · intro hr
              simp [recognizedSubsystem, h5] at hr
          · by_cases h6 : pyEqVal systemName (Value.str "HVAC_System") = true
            · constructor
              · intro _
                simp only [mapTelemetryData, canonicalFields, h1, h2, h3, h4, h5, h6,
                  if_true, if_false, Bool.false_eq_true, ite_false, ite_true]
                rw [bagKeys, List.map_append]
                refine List.append_subset.mpr ⟨?_, ?_⟩
                · exact (bagKeys_hvacTempField _).trans (by simp)
                · simp [bagKeys]
              · intro hr
                simp [recognizedSubsystem, h6] at hr
            · by_cases h7 : pyEqVal systemName (Value.str "Safe_Room") = true
              · constructor
                · intro _
                  simp [mapTelemetryData, canonicalFields, h1, h2, h3, h4, h5, h6, h7, bagKeys]
                · intro hr
                  simp [recognizedSubsystem, h7] at hr
              · constructor
                · intro hr
                  simp [recognizedSubsystem, h1, h2, h3, h4, h5, h6, h7] at hr
                · intro _
                  simp [mapTelemetryData, h1, h2, h3, h4, h5, h6, h7]

/-- Claim C9 — witness: a recognized subsystem with a junk field bag maps
inside its canonical field set. -/
theorem mapper_total_subset_witness :
    recognizedSubsystem (Value.str "Fire_Control") = true ∧
    bagKeys (mapTelemetryData [("junk", Value.num 7)] (Value.str "Fire_Control"))
      ⊆ canonicalFields (Value.str "Fire_Control") :=
  ⟨by decide, (mapper_total_subset (Value.str "Fire_Control") [("junk", Value.num 7)]).1 (by decide)⟩

end MapperTheorems

section CoordinatorTheorems

/-- Claim C1 — counterexample.  A parsed fire payload maps to a non-empty
record, and on a persistence failure the sender still receives a 200
success response, but `_check_and_create_alerts` is never invoked (the
call sits inside the `if success:` branch of `do_POST`), so the reading
is not evaluated against the thresholds; with persistence succeeding the
very same payload is evaluated. -/
theorem persist_failure_skips_alerts_cex :
    (doPost [("system", Value.str "Fire_Control"), ("status", Value.str "FIRE"),
        ("sensor_value", Value.num 800)] false "t0").telemetry ≠ [] ∧
    (doPost [("system", Value.str "Fire_Control"), ("status", Value.str "FIRE"),
        ("sensor_value", Value.num 800)] false "t0").body = RespBody.success ∧
    (doPost [("system", Value.str "Fire_Control"), ("status", Value.str "FIRE"),
        ("sensor_value", Value.num 800)] false "t0").alertEvalAttempted = false ∧
    (doPost [("system", Value.str "Fire_Control"), ("status", Value.str "FIRE"),
        ("sensor_value", Value.num 800)] false "t0").alertOps = [] ∧
    (doPost [("system", Value.str "Fire_Control"), ("status", Value.str "FIRE"),
        ("sensor_value", Value.num 800)] true "t0").alertEvalAttempted = true := by decide

/-- Claim C1 (amended): for every successfully parsed payload with a
non-empty mapping, the sender receives a 200 success acknowledgment
whether or not persistence succeeded, but alert evaluation is attempted
exactly when persistence succeeded — on a persistence failure (which is
logged) the record is not evaluated against the alert thresholds. -/
theorem persist_gates_alert_evaluation (ptData : Bag) (dbOk : Bool) (nowStr : String)
    (h : mapTelemetryData ptData (pyGetD ptData "system" (Value.str "Unknown")) ≠ []) :
    (doPost ptData dbOk nowStr).status = 200 ∧
    (doPost ptData dbOk nowStr).body = RespBody.success ∧
    (doPost ptData dbOk nowStr).alertEvalAttempted = dbOk ∧
    (dbOk = false → (doPost ptData dbOk nowStr).alertOps = []) := by
  unfold doPost
  simp only [if_neg h]
  cases dbOk <;> simp

/-- Claim C1 — witness for the amended theorem. -/
theorem persist_gates_alert_evaluation_witness :
    (doPost [("system", Value.str "HVAC_System"), ("temperature", Value.num 35)]
        false "t1").status = 200 ∧
    (doPost [("system", Value.str "HVAC_System"), ("temperature", Value.num 35)]
        false "t1").body = RespBody.success ∧
    (doPost [("system", Value.str "HVAC_System"), ("temperature", Value.num 35)]
        false "t1").alertEvalAttempted = false ∧
    (false = false → (doPost [("system", Value.str "HVAC_System"),
        ("temperature", Value.num 35)] false "t1").alertOps = []) :=
  persist_gates_alert_evaluation
    [("system", Value.str "HVAC_System"), ("temperature", Value.num 35)] false "t1" (by decide)

/-- Claim C10: a request naming an unknown factory key is still persisted
to the default factory's partition (the insert targets "factory_1_data"
and succeeds whenever storage does), but the factory primary-key lookup
misses, so the last-seen timestamp is not updated and
`_check_and_create_alerts` returns before evaluating any rule: no alert
is created, updated or auto-acknowledged. -/
theorem unknown_factory_routing (ptData : Bag) (dbOk : Bool) (nowStr : String)
    (hf1 : pyGetD ptData "factory" (Value.str DEFAULT_FACTORY) ≠ Value.str "factory_1")
    (hf2 : pyGetD ptData "factory" (Value.str DEFAULT_FACTORY) ≠ Value.str "factory_2")
    (hm : mapTelemetryData ptData (pyGetD ptData "system" (Value.str "Unknown")) ≠ []) :
    (doPost ptData dbOk nowStr).table_name = "factory_1_data" ∧
    (doPost ptData dbOk nowStr).persisted = dbOk ∧
    (doPost ptData dbOk nowStr).lastSeenUpdated = none ∧
    (doPost ptData dbOk nowStr).alertOps = [] := by
  have hpk : factoryLookupPk (pyGetD ptData "factory" (Value.str DEFAULT_FACTORY)) = none := by
    unfold factoryLookupPk
    rw [if_neg hf1, if_neg hf2]
  have hmap : factoryMappingGet (pyGetD ptData "factory" (Value.str DEFAULT_FACTORY)) = none := by
    unfold factoryMappingGet
    rw [if_neg hf1, if_neg hf2]
  unfold doPost
  simp only [if_neg hm]
  cases dbOk <;> simp [hmap, hpk, checkAndCreateAlerts]

/-- Claim C10 — witness at a concrete unknown factory key. -/
theorem unknown_factory_routing_witness :
    (doPost [("system", Value.str "Battery_System"), ("factory", Value.str "factory_9"),
        ("battery_level", Value.num 8)] true "t2").table_name = "factory_1_data" ∧
    (doPost [("system", Value.str "Battery_System"), ("factory", Value.str "factory_9"),
        ("battery_level", Value.num 8)] true "t2").persisted = true ∧
    (doPost [("system", Value.str "Battery_System"), ("factory", Value.str "factory_9"),
        ("battery_level", Value.num 8)] true "t2").lastSeenUpdated = none ∧
    (doPost [("system", Value.str "Battery_System"), ("factory", Value.str "factory_9"),
        ("battery_level", Value.num 8)] true "t2").alertOps = [] :=
  unknown_factory_routing
    [("system", Value.str "Battery_System"), ("factory", Value.str "factory_9"),
     ("battery_level", Value.num 8)] true "t2" (by decide) (by decide) (by decide)

end CoordinatorTheorems

section StoreAdapterTheorems

/-- A freshly inserted alert row matches its own open-alert filter. -/
theorem matchesOpen_new_row (now pk : Nat) (t sev : String) (m : Msg) (sys : Value) (nid : Nat) :
    matchesOpen pk sys t ⟨nid, pk, t, sev, m, sys, false, now, none, none⟩ = true := by
  simp [matchesOpen]

/-- Reduction of `createUniqueAlert` when the open-alert lookup is empty. -/
theorem createUnique_of_none (s : AlertStore) (now pk : Nat) (t sev : String) (m : Msg)
    (sys : Value) (h : s.rows.filter (matchesOpen pk sys t) = []) :
    createUniqueAlert s now pk t sev m sys = insertAlert s now pk t sev m sys := by
  unfold createUniqueAlert
  split
  · rfl
  · rename_i r tail heq
    rw [h] at heq
    exact absurd heq (by simp)

/-- Reduction of `createUniqueAlert` when the open-alert lookup finds a
first row. -/
theorem createUnique_of_head (s : AlertStore) (now pk : Nat) (t sev : String) (m : Msg)
    (sys : Value) (r : AlertRecord) (rest : List AlertRecord)
    (h : s.rows.filter (matchesOpen pk sys t) = r :: rest) :
    createUniqueAlert s now pk t sev m sys =
      if r.message ≠ m then
        ⟨s.rows.map (fun x =>
            if x.id = r.id then { x with message := m, created_at := now } else x),
         s.nextId⟩
      else s := by
  unfold createUniqueAlert
  split
  · rename_i heq
    rw [h] at heq
    exact absurd heq (by simp)
  · rename_i r' tail heq
    rw [h] at heq
    injection heq with h1 h2
    subst h1
    rfl

/-- Claim C3: reconciling an Assert inserts a fresh open row when no open
alert for the (factory, subsystem, alertType) tuple exists — and then an
identical second Assert is a complete no-op, leaving exactly the one
inserted row; when an open alert exists and its message differs, the row
is rewritten in place (same row count, no insert); when its message is
unchanged, no write occurs at all. -/
theorem reconcile_assert_cases (s : AlertStore) (now now2 : Nat) (pk : Nat)
    (t sev : String) (m : Msg) (sys : Value) :
    (s.rows.filter (matchesOpen pk sys t) = [] →
      (createUniqueAlert s now pk t sev m sys).rows
          = s.rows ++ [⟨s.nextId, pk, t, sev, m, sys, false, now, none, none⟩] ∧
        createUniqueAlert (createUniqueAlert s now pk t sev m sys) now2 pk t sev m sys
          = createUniqueAlert s now pk t sev m sys) ∧
    (∀ r rest, s.rows.filter (matchesOpen pk sys t) = r :: rest →
      (r.message ≠ m →
        (createUniqueAlert s now pk t sev m sys).rows
            = s.rows.map (fun x =>
                if x.id = r.id then { x with message := m, created_at := now } else x) ∧
        (createUniqueAlert s now pk t sev m sys).rows.length = s.rows.length) ∧
      (r.message = m → createUniqueAlert s now pk t sev m sys = s)) := by
  constructor
  · intro h
    have h1 : createUniqueAlert s now pk t sev m sys = insertAlert s now pk t sev m sys :=
      createUnique_of_none s now pk t sev m sys h
    refine ⟨by rw [h1]; rfl, ?_⟩
    have h2 : (insertAlert s now pk t sev m sys).rows.filter (matchesOpen pk sys t)
        = [⟨s.nextId, pk, t, sev, m, sys, false, now, none, none⟩] := by
      show (s.rows ++ [_]).filter _ = _
      rw [List.filter_append, h]
      simp [matchesOpen_new_row]
    rw [h1]
    rw [createUnique_of_head (insertAlert s now pk t sev m sys) now2 pk t sev m sys _ [] h2]
    simp
  · intro r rest h
    constructor
    · intro hne
      have h1 : createUniqueAlert s now pk t sev m sys
          = ⟨s.rows.map (fun x =>
              if x.id = r.id then { x with message := m, created_at := now } else x),
             s.nextId⟩ := by
        rw [createUnique_of_head s now pk t sev m sys r rest h, if_pos hne]
      exact ⟨by rw [h1], by rw [h1]; simp⟩
    · intro heq
      rw [createUnique_of_head s now pk t sev m sys r rest h, if_neg (by simp [heq])]

/-- Claim C3 — witness: inserting into the empty store and asserting the
identical alert again leaves exactly the single inserted row. -/
theorem reconcile_assert_cases_witness :
    (createUniqueAlert emptyStore 3 1 "FIRE_DETECTED" "CRITICAL" (Msg.fire Value.null)
        (Value.str "Fire_Control")).rows
      = emptyStore.rows ++
          [⟨emptyStore.nextId, 1, "FIRE_DETECTED", "CRITICAL", Msg.fire Value.null,
            Value.str "Fire_Control", false, 3, none, none⟩] ∧
    createUniqueAlert (createUniqueAlert emptyStore 3 1 "FIRE_DETECTED" "CRITICAL"
        (Msg.fire Value.null) (Value.str "Fire_Control")) 9 1 "FIRE_DETECTED" "CRITICAL"
        (Msg.fire Value.null) (Value.str "Fire_Control")
      = createUniqueAlert emptyStore 3 1 "FIRE_DETECTED" "CRITICAL" (Msg.fire Value.null)
          (Value.str "Fire_Control") :=
  (reconcile_assert_cases emptyStore 3 9 1 "FIRE_DETECTED" "CRITICAL" (Msg.fire Value.null)
    (Value.str "Fire_Control")).1 (by decide)

/-- The in-place message/timestamp rewrite of `_create_unique_alert`
never changes which open-alert filters a row satisfies. -/
theorem matchesOpen_update_invariant (pk : Nat) (sys : Value) (t : String) (m : Msg)
    (now rid : Nat) (x : AlertRecord) :
    matchesOpen pk sys t
        (if x.id = rid then { x with message := m, created_at := now } else x)
      = matchesOpen pk sys t x := by
  by_cases h : x.id = rid
  · rw [if_pos h]
    rfl
  · rw [if_neg h]

/-- `_create_unique_alert` preserves the dedup invariant. -/
theorem createUnique_preserves_inv (s : AlertStore) (now pk : Nat) (t sev : String)
    (m : Msg) (sys : Value) (hinv : StoreInv s) :
    StoreInv (createUniqueAlert s now pk t sev m sys) := by
  cases hf : s.rows.filter (matchesOpen pk sys t) with
  | nil =>
    rw [createUnique_of_none s now pk t sev m sys hf]
    intro pk' sys' t' ht'
    unfold openCount insertAlert
    rw [List.filter_append, List.length_append]
    cases hm : matchesOpen pk' sys' t' ⟨s.nextId, pk, t, sev, m, sys, false, now, none, none⟩ with
    | false => simpa [hm] using hinv pk' sys' t' ht'
    | true =>
      have hkey : pk = pk' ∧ sys = sys' ∧ t = t' := by
        simpa [matchesOpen, and_assoc] using hm
      obtain ⟨hk1, hk2, hk3⟩ := hkey
      subst hk1
      subst hk2
      subst hk3
      rw [hf]
      simp [hm]
  | cons r rest =>
    rw [createUnique_of_head s now pk t sev m sys r rest hf]
    by_cases hne : r.message ≠ m
    · rw [if_pos hne]
      intro pk' sys' t' ht'
      unfold openCount
      show ((s.rows.map _).filter _).length ≤ 1
      rw [length_filter_map_eq _ _ (matchesOpen_update_invariant pk' sys' t' m now r.id)]
      exact hinv pk' sys' t' ht'
    · rw [if_neg hne]
      exact hinv

/-- `_auto_acknowledge_alert` preserves the dedup invariant (it only
closes alerts, never opens one). -/
theorem autoAck_preserves_inv (s : AlertStore) (now pk : Nat) (sys : Value) (t : String)
    (hinv : StoreInv s) : StoreInv (autoAcknowledgeAlert s now pk sys t) := by
  intro pk' sys' t' ht'
  unfold openCount autoAcknowledgeAlert
  refine Nat.le_trans (length_filter_map_le _ _ ?_ s.rows) (hinv pk' sys' t' ht')
  intro x hx
  by_cases h : matchesOpen pk sys t x = true
  · rw [if_pos h] at hx
    simp [matchesOpen] at hx
  · rw [if_neg h] at hx
    exact hx

/-- Inserting an alert of one type leaves the open counts of every other
type unchanged. -/
theorem openCount_insertAlert_of_ne (s : AlertStore) (now pk : Nat) (t sev : String)
    (m : Msg) (sys : Value) (pk' : Nat) (sys' : Value) (t' : String) (htt : t ≠ t') :
    openCount (insertAlert s now pk t sev m sys) pk' sys' t' = openCount s pk' sys' t' := by
  unfold openCount insertAlert
  rw [List.filter_append, List.length_append]
  have hm : matchesOpen pk' sys' t' ⟨s.nextId, pk, t, sev, m, sys, false, now, none, none⟩
      = false := by
    simp [matchesOpen, htt]
  simp [hm]

/-- One store operation of the kinds the server issues preserves the
dedup invariant. -/
theorem applyOp_preserves_inv (s : AlertStore) (now : Nat) (op : StoreOp)
    (hok : opOK op = true) (hinv : StoreInv s) : StoreInv (applyOp s now op) := by
  cases op with
  | createUnique pk t sev m sys => exact createUnique_preserves_inv s now pk t sev m sys hinv
  | autoAck pk sys t => exact autoAck_preserves_inv s now pk sys t hinv
  | insertAlways pk t sev m sys =>
    have ht : t = "UNAUTHORIZED_ACCESS" := by simpa [opOK] using hok
    intro pk' sys' t' ht'
    rw [show applyOp s now (StoreOp.insertAlways pk t sev m sys)
          = insertAlert s now pk t sev m sys from rfl,
        openCount_insertAlert_of_ne s now pk t sev m sys pk' sys' t'
          (by rw [ht]; exact fun hh => ht' hh.symm)]
    exact hinv pk' sys' t' ht'

/-- Claim C2: every sequence of the reconciliation operations the server
issues — Asserts (`_create_unique_alert`), Clears
(`_auto_acknowledge_alert`) and the UNAUTHORIZED_ACCESS-only
unconditional inserts — preserves the invariant that at most one
unacknowledged alert row exists per (factory, subsystem, alert type)
tuple for every alert type other than UNAUTHORIZED_ACCESS. -/
theorem reconcile_preserves_dedup_invariant (ops : List StoreOp) (now : Nat) (s : AlertStore)
    (hok : ∀ op ∈ ops, opOK op = true) (hinv : StoreInv s) :
    StoreInv (applyOps s now ops) := by
  induction ops generalizing s with
  | nil => exact hinv
  | cons op rest ih =>
    exact ih (applyOp s now op) (fun o ho => hok o (List.mem_cons_of_mem _ ho))
      (applyOp_preserves_inv s now op (hok op (List.mem_cons_self _ _)) hinv)

/-- Claim C2 — witness: a duplicate Assert, a Clear and an unauthorized
insert starting from the empty store keep the invariant. -/
theorem reconcile_preserves_dedup_invariant_witness :
    StoreInv (applyOps emptyStore 0
      [StoreOp.createUnique 1 "HIGH_TEMPERATURE" "WARNING" (Msg.highTemp 35 Value.null)
         (Value.str "HVAC_System"),
       StoreOp.createUnique 1 "HIGH_TEMPERATURE" "WARNING" (Msg.highTemp 36 Value.null)
         (Value.str "HVAC_System"),
       StoreOp.autoAck 1 (Value.str "HVAC_System") "HIGH_TEMPERATURE",
       StoreOp.insertAlways 1 "UNAUTHORIZED_ACCESS" "WARNING" (Msg.unauthorized Value.null)
         (Value.str "Safe_Room")]) :=
  reconcile_preserves_dedup_invariant _ 0 emptyStore (by decide)
    (by intro pk sys t ht; simp [openCount, emptyStore])

end StoreAdapterTheorems

section RuleEngineTheorems

/-- An operation whose type differs never registers as an assert. -/
theorem opAssertsTypeSev_eq_false (t sev : String) (op : StoreOp) (h : opType op ≠ t) :
    opAssertsTypeSev t sev op = false := by
  cases op <;> simp_all [opAssertsTypeSev, opType]

/-- An operation whose type differs never registers as an assert. -/
theorem opAssertsType_eq_false (t : String) (op : StoreOp) (h : opType op ≠ t) :
    opAssertsType t op = false := by
  cases op <;> simp_all [opAssertsType, opType]

/-- An operation whose type differs never registers as a clear. -/
theorem opClearsType_eq_false (t : String) (op : StoreOp) (h : opType op ≠ t) :
    opClearsType t op = false := by
  cases op <;> simp_all [opClearsType, opType]

/-- A trace whose operations all name other types asserts nothing of
type `t`. -/
theorem assertsTypeSev_eq_false (ops : List StoreOp) (t sev : String)
    (h : ∀ op ∈ ops, opType op ≠ t) : assertsTypeSev ops t sev = false := by
  induction ops with
  | nil => rfl
  | cons op rest ih =>
    show (opAssertsTypeSev t sev op || rest.any (opAssertsTypeSev t sev)) = false
    rw [opAssertsTypeSev_eq_false t sev op (h op (List.mem_cons_self _ _)), Bool.false_or]
    exact ih fun o ho => h o (List.mem_cons_of_mem _ ho)

/-- A trace whose operations all name other types asserts nothing of
type `t`. -/
theorem assertsType_eq_false (ops : List StoreOp) (t : String)
    (h : ∀ op ∈ ops, opType op ≠ t) : assertsType ops t = false := by
  induction ops with
  | nil => rfl
  | cons op rest ih =>
    show (opAssertsType t op || rest.any (opAssertsType t)) = false
    rw [opAssertsType_eq_false t op (h op (List.mem_cons_self _ _)), Bool.false_or]
    exact ih fun o ho => h o (List.mem_cons_of_mem _ ho)

/-- A trace whose operations all name other types clears nothing of
type `t`. -/
theorem clearsType_eq_false (ops : List StoreOp) (t : String)
    (h : ∀ op ∈ ops, opType op ≠ t) : clearsType ops t = false := by
  induction ops with
  | nil => rfl
  | cons op rest ih =>
    show (opClearsType t op || rest.any (opClearsType t)) = false
    rw [opClearsType_eq_false t op (h op (List.mem_cons_self _ _)), Bool.false_or]
    exact ih fun o ho => h o (List.mem_cons_of_mem _ ho)

/-- Every operation of the fire block names FIRE_DETECTED. -/
theorem fireOps_types (tel : Bag) (pk : Nat) (sys : Value) :
    ∀ op ∈ fireOps tel pk sys, opType op = "FIRE_DETECTED" := by
  intro op hop
  simp only [fireOps] at hop
  split at hop <;> simp only [List.mem_singleton] at hop <;> subst hop <;> rfl

/-- Every operation of the temperature block names HIGH_TEMPERATURE or
LOW_TEMPERATURE. -/
theorem tempOps_types (tel : Bag) (pk : Nat) (sys : Value) :
    ∀ op ∈ tempOps tel pk sys,
      opType op = "HIGH_TEMPERATURE" ∨ opType op = "LOW_TEMPERATURE" := by
  intro op hop
  unfold tempOps at hop
  split at hop
  · simp at hop
  · split at hop
    · simp only [List.mem_singleton] at hop
      subst hop
      exact Or.inl rfl
    · split at hop
      · simp only [List.mem_singleton] at hop
        subst hop
        exact Or.inr rfl
      · simp only [List.mem_cons, List.mem_singleton, List.not_mem_nil, or_false] at hop
        rcases hop with h | h <;> subst h
        · exact Or.inl rfl
        · exact Or.inr rfl

/-- The access block only ever contains the one unconditional
UNAUTHORIZED_ACCESS insert. -/
theorem accessOps_val (tel : Bag) (pk : Nat) (sys : Value) :
    ∀ op ∈ accessOps tel pk sys,
      op = StoreOp.insertAlways pk "UNAUTHORIZED_ACCESS" "WARNING"
            (Msg.unauthorized (pyGetD tel "rfid_last_card" (Value.str "Unknown"))) sys := by
  intro op hop
  unfold accessOps at hop
  split at hop
  · simp only [List.mem_singleton] at hop
    exact hop
  · simp at hop

/-- Every operation of the battery-and-access block names LOW_BATTERY or
UNAUTHORIZED_ACCESS. -/
theorem batteryAccessOps_types (tel : Bag) (pk : Nat) (sys : Value) :
    ∀ op ∈ batteryAccessOps tel pk sys,
      opType op = "LOW_BATTERY" ∨ opType op = "UNAUTHORIZED_ACCESS" := by
  intro op hop
  simp only [batteryAccessOps] at hop
  split at hop
  · split at hop
    · simp at hop
    · rw [List.mem_append] at hop
      rcases hop with h | h
      · split at h <;> simp only [List.mem_singleton] at h <;> subst h
        · exact Or.inl rfl
        · exact Or.inl rfl
      · rw [accessOps_val tel pk sys op h]
        exact Or.inr rfl
  · rw [accessOps_val tel pk sys op hop]
    exact Or.inr rfl

/-- Reduction of `_check_and_create_alerts` at a known factory key. -/
theorem checkAlerts_of_pk (telemetry : Bag) (fid sys : Value) (pk : Nat)
    (h : factoryLookupPk fid = some pk) :
    checkAndCreateAlerts telemetry fid sys
      = fireOps telemetry pk sys ++ tempOps telemetry pk sys ++
          batteryAccessOps telemetry pk sys := by
  unfold checkAndCreateAlerts
  split
  · rename_i heq
    rw [h] at heq
    exact Option.noConfusion heq
  · rename_i pk' heq
    rw [h] at heq
    injection heq with h1
    rw [h1]

/-- Flags of the fire block as a function of its trigger condition. -/
theorem fireOps_flags (tel : Bag) (pk : Nat) (sys : Value) :
    assertsTypeSev (fireOps tel pk sys) "FIRE_DETECTED" "CRITICAL"
        = (pyInStr "FIRE" (fireStatusOf tel) && !(fireStatusOf tel == "SAFE")) ∧
    clearsType (fireOps tel pk sys) "FIRE_DETECTED"
        = !(pyInStr "FIRE" (fireStatusOf tel) && !(fireStatusOf tel == "SAFE")) := by
  simp only [fireOps]
  split
  · rename_i hcond
    rw [hcond]
    constructor <;> simp [assertsTypeSev, clearsType, opAssertsTypeSev, opClearsType]
  · rename_i hcond
    rw [Bool.eq_false_iff.mpr hcond]
    constructor <;> simp [assertsTypeSev, clearsType, opAssertsTypeSev, opClearsType]

/-- Claim C4: the rule engine asserts FIRE_DETECTED at severity CRITICAL
exactly when the record's status, upper-cased, contains the substring
"FIRE" and is not exactly "SAFE", and auto-clears FIRE_DETECTED exactly
otherwise. -/
theorem fire_rule_characterization (telemetry : Bag) (fid sys : Value) (pk : Nat)
    (h : factoryLookupPk fid = some pk) :
    (assertsTypeSev (checkAndCreateAlerts telemetry fid sys) "FIRE_DETECTED" "CRITICAL" = true
      ↔ pyInStr "FIRE" (fireStatusOf telemetry) = true ∧ fireStatusOf telemetry ≠ "SAFE") ∧
    (clearsType (checkAndCreateAlerts telemetry fid sys) "FIRE_DETECTED" = true
      ↔ ¬(pyInStr "FIRE" (fireStatusOf telemetry) = true ∧ fireStatusOf telemetry ≠ "SAFE")) := by
  rw [checkAlerts_of_pk telemetry fid sys pk h]
  have htemps : ∀ op ∈ tempOps telemetry pk sys, opType op ≠ "FIRE_DETECTED" := by
    intro op hop
    rcases tempOps_types telemetry pk sys op hop with h1 | h1 <;> simp [h1]
  have hbats : ∀ op ∈ batteryAccessOps telemetry pk sys, opType op ≠ "FIRE_DETECTED" := by
    intro op hop
    rcases batteryAccessOps_types telemetry pk sys op hop with h1 | h1 <;> simp [h1]
  simp only [assertsTypeSev, clearsType, List.any_append] at *
  rw [show (tempOps telemetry pk sys).any (opAssertsTypeSev "FIRE_DETECTED" "CRITICAL") = false
        from assertsTypeSev_eq_false _ _ _ htemps,
      show (batteryAccessOps telemetry pk sys).any (opAssertsTypeSev "FIRE_DETECTED" "CRITICAL")
          = false from assertsTypeSev_eq_false _ _ _ hbats,
      show (tempOps telemetry pk sys).any (opClearsType "FIRE_DETECTED") = false
        from clearsType_eq_false _ _ htemps,
      show (batteryAccessOps telemetry pk sys).any (opClearsType "FIRE_DETECTED") = false
        from clearsType_eq_false _ _ hbats]
  have hf := fireOps_flags telemetry pk sys
  rw [assertsTypeSev, clearsType] at hf
  rw [hf.1, hf.2]
  simp [Bool.and_eq_true, Bool.not_eq_true']
  cases hA : pyInStr "FIRE" (fireStatusOf telemetry) <;> simp [hA]

/-- Claim C4 — witness: status "FIRE_1" asserts, "SAFE" clears, and the
edge case "FIRE_SAFE" (contains "FIRE", differs from "SAFE") asserts. -/
theorem fire_rule_characterization_witness :
    assertsTypeSev (checkAndCreateAlerts [("fire_status", Value.str "FIRE_1")]
        (Value.str "factory_1") (Value.str "Fire_Control")) "FIRE_DETECTED" "CRITICAL" = true ∧
    clearsType (checkAndCreateAlerts [("fire_status", Value.str "SAFE")]
        (Value.str "factory_1") (Value.str "Fire_Control")) "FIRE_DETECTED" = true ∧
    assertsTypeSev (checkAndCreateAlerts [("fire_status", Value.str "FIRE_SAFE")]
        (Value.str "factory_1") (Value.str "Fire_Control")) "FIRE_DETECTED" "CRITICAL" = true :=
  ⟨(fire_rule_characterization [("fire_status", Value.str "FIRE_1")] (Value.str "factory_1")
      (Value.str "Fire_Control") 1 (by decide)).1.mpr (by decide),
   (fire_rule_characterization [("fire_status", Value.str "SAFE")] (Value.str "factory_1")
      (Value.str "Fire_Control") 1 (by decide)).2.mpr (by decide),
   (fire_rule_characterization [("fire_status", Value.str "FIRE_SAFE")] (Value.str "factory_1")
      (Value.str "Fire_Control") 1 (by decide)).1.mpr (by decide)⟩

/-- Append distributes over the assert flag. -/
theorem assertsTypeSev_append (a b : List StoreOp) (t sev : String) :
    assertsTypeSev (a ++ b) t sev = (assertsTypeSev a t sev || assertsTypeSev b t sev) := by
  simp [assertsTypeSev, List.any_append]

/-- Append distributes over the assert flag. -/
theorem assertsType_append (a b : List StoreOp) (t : String) :
    assertsType (a ++ b) t = (assertsType a t || assertsType b t) := by
  simp [assertsType, List.any_append]

/-- Append distributes over the clear flag. -/
theorem clearsType_append (a b : List StoreOp) (t : String) :
    clearsType (a ++ b) t = (clearsType a t || clearsType b t) := by
  simp [clearsType, List.any_append]

/-- All observation flags vanish on a trace naming only other types. -/
theorem flags_eq_false_of_types (ops : List StoreOp) (t : String)
    (h : ∀ op ∈ ops, opType op ≠ t) :
    (∀ sev, assertsTypeSev ops t sev = false) ∧
      assertsType ops t = false ∧ clearsType ops t = false :=
  ⟨fun sev => assertsTypeSev_eq_false ops t sev h, assertsType_eq_false ops t h,
   clearsType_eq_false ops t h⟩

/-- Reduction of the temperature block when the reading does not coerce
to a float. -/
theorem tempOps_of_none (tel : Bag) (pk : Nat) (sys : Value)
    (h : pyFloat (pyGet tel "temperature") = none) : tempOps tel pk sys = [] := by
  unfold tempOps
  split
  · rfl
  · rename_i tq heq
    rw [h] at heq
    exact Option.noConfusion heq

/-- Reduction of the temperature block at a parsed reading. -/
theorem tempOps_of_some (tel : Bag) (pk : Nat) (sys : Value) (tq : ℚ)
    (h : pyFloat (pyGet tel "temperature") = some tq) :
    tempOps tel pk sys =
      if tq > ALERT_THRESHOLDS.temperature_high then
        [StoreOp.createUnique pk "HIGH_TEMPERATURE" "WARNING"
          (Msg.highTemp tq (pyGetD tel "ac_state" (Value.str "N/A"))) sys]
      else if tq < ALERT_THRESHOLDS.temperature_low then
        [StoreOp.createUnique pk "LOW_TEMPERATURE" "WARNING"
          (Msg.lowTemp tq (pyGetD tel "furnace_state" (Value.str "N/A"))) sys]
      else
        [StoreOp.autoAck pk sys "HIGH_TEMPERATURE",
         StoreOp.autoAck pk sys "LOW_TEMPERATURE"] := by
  unfold tempOps
  split
  · rename_i heq
    rw [h] at heq
    exact Option.noConfusion heq
  · rename_i tq' heq
    rw [h] at heq
    injection heq with h1
    subst h1
    rfl

/-- Claim C5: with a float-coercible temperature reading,
HIGH_TEMPERATURE (WARNING) is asserted exactly when the reading exceeds
the high threshold and LOW_TEMPERATURE (WARNING) exactly when it is
below the low threshold; the two are never asserted together; an
in-range reading clears both; and a null, absent or unparseable reading
leaves both temperature alerts untouched (no assert and no clear). -/
theorem temperature_rule_characterization (telemetry : Bag) (fid sys : Value) (pk : Nat)
    (h : factoryLookupPk fid = some pk) :
    (∀ tq : ℚ, pyFloat (pyGet telemetry "temperature") = some tq →
      (assertsTypeSev (checkAndCreateAlerts telemetry fid sys) "HIGH_TEMPERATURE" "WARNING"
          = true ↔ tq > ALERT_THRESHOLDS.temperature_high) ∧
      (assertsTypeSev (checkAndCreateAlerts telemetry fid sys) "LOW_TEMPERATURE" "WARNING"
          = true ↔ tq < ALERT_THRESHOLDS.temperature_low) ∧
      ¬(assertsType (checkAndCreateAlerts telemetry fid sys) "HIGH_TEMPERATURE" = true ∧
        assertsType (checkAndCreateAlerts telemetry fid sys) "LOW_TEMPERATURE" = true) ∧
      (ALERT_THRESHOLDS.temperature_low ≤ tq → tq ≤ ALERT_THRESHOLDS.temperature_high →
        clearsType (checkAndCreateAlerts telemetry fid sys) "HIGH_TEMPERATURE" = true ∧
        clearsType (checkAndCreateAlerts telemetry fid sys) "LOW_TEMPERATURE" = true)) ∧
    (pyFloat (pyGet telemetry "temperature") = none →
      mentionsType (checkAndCreateAlerts telemetry fid sys) "HIGH_TEMPERATURE" = false ∧
      mentionsType (checkAndCreateAlerts telemetry fid sys) "LOW_TEMPERATURE" = false) := by
  rw [checkAlerts_of_pk telemetry fid sys pk h]
  have hfireH : ∀ op ∈ fireOps telemetry pk sys, opType op ≠ "HIGH_TEMPERATURE" := by
    intro op hop
    simp [fireOps_types telemetry pk sys op hop]
  have hfireL : ∀ op ∈ fireOps telemetry pk sys, opType op ≠ "LOW_TEMPERATURE" := by
    intro op hop
    simp [fireOps_types telemetry pk sys op hop]
  have hbatH : ∀ op ∈ batteryAccessOps telemetry pk sys, opType op ≠ "HIGH_TEMPERATURE" := by
    intro op hop
    rcases batteryAccessOps_types telemetry pk sys op hop with h1 | h1 <;> simp [h1]
  have hbatL : ∀ op ∈ batteryAccessOps telemetry pk sys, opType op ≠ "LOW_TEMPERATURE" := by
    intro op hop
    rcases batteryAccessOps_types telemetry pk sys op hop with h1 | h1 <;> simp [h1]
  have hFH := flags_eq_false_of_types _ _ hfireH
  have hFL := flags_eq_false_of_types _ _ hfireL
  have hBH := flags_eq_false_of_types _ _ hbatH
  have hBL := flags_eq_false_of_types _ _ hbatL
  have hth : ALERT_THRESHOLDS.temperature_high = 30 := rfl
  have htl : ALERT_THRESHOLDS.temperature_low = 15 := rfl
  constructor
  · intro tq htq
    rw [tempOps_of_some telemetry pk sys tq htq]
    by_cases h30 : tq > ALERT_THRESHOLDS.temperature_high
    · rw [if_pos h30]
      refine ⟨?_, ?_, ?_, ?_⟩
      · rw [assertsTypeSev_append, assertsTypeSev_append, hFH.1, hBH.1]
        simp [assertsTypeSev, opAssertsTypeSev, h30]
      · rw [assertsTypeSev_append, assertsTypeSev_append, hFL.1, hBL.1]
        have : ¬ tq < ALERT_THRESHOLDS.temperature_low := by
          rw [htl]
          rw [hth] at h30
          linarith
        simp [assertsTypeSev, opAssertsTypeSev, this]
      · intro hcon
        have h2 := hcon.2
        rw [assertsType_append, assertsType_append, hFL.2.1, hBL.2.1] at h2
        simp [assertsType, opAssertsType] at h2
      · intro hlo hhi
        exact absurd h30 (by simp [not_lt.mpr hhi])
    · rw [if_neg h30]
      by_cases h15 : tq < ALERT_THRESHOLDS.temperature_low
      · rw [if_pos h15]
        refine ⟨?_, ?_, ?_, ?_⟩
        · rw [assertsTypeSev_append, assertsTypeSev_append, hFH.1, hBH.1]
          simp [assertsTypeSev, opAssertsTypeSev, h30]
        · rw [assertsTypeSev_append, assertsTypeSev_append, hFL.1, hBL.1]
          simp [assertsTypeSev, opAssertsTypeSev, h15]
        · intro hcon
          have h2 := hcon.1
          rw [assertsType_append, assertsType_append, hFH.2.1, hBH.2.1] at h2
          simp [assertsType, opAssertsType] at h2
        · intro hlo hhi
          exact absurd h15 (by simp [not_lt.mpr hlo])
      · rw [if_neg h15]
        refine ⟨?_, ?_, ?_, ?_⟩
        · rw [assertsTypeSev_append, assertsTypeSev_append, hFH.1, hBH.1]
          simp [assertsTypeSev, opAssertsTypeSev, h30]
        · rw [assertsTypeSev_append, assertsTypeSev_append, hFL.1, hBL.1]
          simp [assertsTypeSev, opAssertsTypeSev, h15]
        · intro hcon
          have h2 := hcon.1
          rw [assertsType_append, assertsType_append, hFH.2.1, hBH.2.1] at h2
          simp [assertsType, opAssertsType] at h2
        · intro _ _
          constructor
          · rw [clearsType_append, clearsType_append, hFH.2.2, hBH.2.2]
            simp [clearsType, opClearsType]
          · rw [clearsType_append, clearsType_append, hFL.2.2, hBL.2.2]
            simp [clearsType, opClearsType]
  · intro hnone
    rw [tempOps_of_none telemetry pk sys hnone]
    constructor
    · rw [mentionsType, assertsType_append, assertsType_append, clearsType_append,
        clearsType_append, hFH.2.1, hBH.2.1, hFH.2.2, hBH.2.2]
      rfl
    · rw [mentionsType, assertsType_append, assertsType_append, clearsType_append,
        clearsType_append, hFL.2.1, hBL.2.1, hFL.2.2, hBL.2.2]
      rfl

/-- Claim C5 — witness: 35.0 versus thresholds (30, 15) asserts
HIGH_TEMPERATURE, and 20.0 clears both temperature alerts. -/
theorem temperature_rule_characterization_witness :
    assertsTypeSev (checkAndCreateAlerts [("temperature", Value.num 35)]
        (Value.str "factory_1") (Value.str "HVAC_System")) "HIGH_TEMPERATURE" "WARNING"
      = true ∧
    (clearsType (checkAndCreateAlerts [("temperature", Value.num 20)]
        (Value.str "factory_1") (Value.str "HVAC_System")) "HIGH_TEMPERATURE" = true ∧
     clearsType (checkAndCreateAlerts [("temperature", Value.num 20)]
        (Value.str "factory_1") (Value.str "HVAC_System")) "LOW_TEMPERATURE" = true) :=
  ⟨(((temperature_rule_characterization [("temperature", Value.num 35)] (Value.str "factory_1")
      (Value.str "HVAC_System") 1 (by decide)).1 35 (by decide)).1).mpr (by decide),
   (((temperature_rule_characterization [("temperature", Value.num 20)] (Value.str "factory_1")
      (Value.str "HVAC_System") 1 (by decide)).1 20 (by decide)).2.2.2) (by decide) (by decide)⟩

/-- Reduction of the battery-and-access block when the battery value is
falsy (absent, null, zero, empty string): the battery rule is skipped
entirely and only the access check runs. -/
theorem batteryAccessOps_of_falsy (tel : Bag) (pk : Nat) (sys : Value)
    (h : pyTruthy (pyGet tel "battery_level") = false) :
    batteryAccessOps tel pk sys = accessOps tel pk sys := by
  simp only [batteryAccessOps]
  rw [if_neg (by simp [h])]

/-- Reduction of the battery-and-access block when the battery value is
truthy but non-numeric: the threshold comparison raises `TypeError` and
the method-wide handler aborts the remaining checks. -/
theorem batteryAccessOps_of_nonnum (tel : Bag) (pk : Nat) (sys : Value)
    (h1 : pyTruthy (pyGet tel "battery_level") = true)
    (h2 : pyNum (pyGet tel "battery_level") = none) :
    batteryAccessOps tel pk sys = [] := by
  simp only [batteryAccessOps]
  rw [if_pos h1]
  split
  · rfl
  · rename_i b heq
    rw [h2] at heq
    exact Option.noConfusion heq

/-- Reduction of the battery-and-access block at a truthy numeric
battery level. -/
theorem batteryAccessOps_of_num (tel : Bag) (pk : Nat) (sys : Value) (b : ℚ)
    (h1 : pyTruthy (pyGet tel "battery_level") = true)
    (h2 : pyNum (pyGet tel "battery_level") = some b) :
    batteryAccessOps tel pk sys =
      (if b < ALERT_THRESHOLDS.battery_low then
        [StoreOp.createUnique pk "LOW_BATTERY" "WARNING"
          (Msg.lowBattery b (pyGetD tel "led_brightness" (Value.str "N/A"))) sys]
      else [StoreOp.autoAck pk sys "LOW_BATTERY"]) ++ accessOps tel pk sys := by
  simp only [batteryAccessOps]
  rw [if_pos h1]
  split
  · rename_i heq
    rw [h2] at heq
    exact Option.noConfusion heq
  · rename_i b' heq
    rw [h2] at heq
    injection heq with hh
    subst hh
    rfl

/-- Claim C6: LOW_BATTERY (WARNING) is asserted exactly when the battery
level is present, truthy (nonzero) and numerically below the threshold,
and cleared exactly when present, truthy and at or above it; a level of
exactly 0 is falsy, so the rule is skipped entirely — neither asserted
nor cleared — although 0 is below the threshold. -/
theorem battery_rule_characterization (telemetry : Bag) (fid sys : Value) (pk : Nat)
    (h : factoryLookupPk fid = some pk) :
    (assertsTypeSev (checkAndCreateAlerts telemetry fid sys) "LOW_BATTERY" "WARNING" = true
      ↔ ∃ b, pyNum (pyGet telemetry "battery_level") = some b ∧
          pyTruthy (pyGet telemetry "battery_level") = true ∧
          b < ALERT_THRESHOLDS.battery_low) ∧
    (clearsType (checkAndCreateAlerts telemetry fid sys) "LOW_BATTERY" = true
      ↔ ∃ b, pyNum (pyGet telemetry "battery_level") = some b ∧
          pyTruthy (pyGet telemetry "battery_level") = true ∧
          ALERT_THRESHOLDS.battery_low ≤ b) ∧
    (pyGet telemetry "battery_level" = Value.num 0 →
      mentionsType (checkAndCreateAlerts telemetry fid sys) "LOW_BATTERY" = false) := by
  rw [checkAlerts_of_pk telemetry fid sys pk h]
  have hfire : ∀ op ∈ fireOps telemetry pk sys, opType op ≠ "LOW_BATTERY" := by
    intro op hop
    simp [fireOps_types telemetry pk sys op hop]
  have htemp : ∀ op ∈ tempOps telemetry pk sys, opType op ≠ "LOW_BATTERY" := by
    intro op hop
    rcases tempOps_types telemetry pk sys op hop with h1 | h1 <;> simp [h1]
  have haccess : ∀ op ∈ accessOps telemetry pk sys, opType op ≠ "LOW_BATTERY" := by
    intro op hop
    rw [accessOps_val telemetry pk sys op hop]
    simp [opType]
  have hF := flags_eq_false_of_types _ _ hfire
  have hT := flags_eq_false_of_types _ _ htemp
  have hA := flags_eq_false_of_types _ _ haccess
  by_cases hbt : pyTruthy (pyGet telemetry "battery_level") = true
  · cases hnum : pyNum (pyGet telemetry "battery_level") with
    | none =>
      rw [batteryAccessOps_of_nonnum telemetry pk sys hbt hnum]
      refine ⟨?_, ?_, ?_⟩
      · rw [assertsTypeSev_append, assertsTypeSev_append, hF.1, hT.1]
        simp only [assertsTypeSev, List.any_nil, Bool.or_false]
        constructor
        · intro hc
          exact absurd hc (by simp)
        · rintro ⟨b, hb, _, _⟩
          exact Option.noConfusion hb
      · rw [clearsType_append, clearsType_append, hF.2.2, hT.2.2]
        simp only [clearsType, List.any_nil, Bool.or_false]
        constructor
        · intro hc
          exact absurd hc (by simp)
        · rintro ⟨b, hb, _, _⟩
          exact Option.noConfusion hb
      · intro h0
        rw [h0] at hnum
        simp [pyNum] at hnum
    | some b =>
      rw [batteryAccessOps_of_num telemetry pk sys b hbt hnum]
      by_cases hlt : b < ALERT_THRESHOLDS.battery_low
      · rw [if_pos hlt]
        refine ⟨?_, ?_, ?_⟩
        · rw [assertsTypeSev_append, assertsTypeSev_append, assertsTypeSev_append,
            hF.1, hT.1, hA.1]
          simp only [assertsTypeSev, List.any_cons, List.any_nil, opAssertsTypeSev]
          constructor
          · intro _
            exact ⟨b, rfl, hbt, hlt⟩
          · intro _
            simp
        · rw [clearsType_append, clearsType_append, clearsType_append,
            hF.2.2, hT.2.2, hA.2.2]
          simp only [clearsType, List.any_cons, List.any_nil, opClearsType]
          constructor
          · intro hc
            exact absurd hc (by simp)
          · rintro ⟨b', hb', _, hge⟩
            injection hb' with hbb
            subst hbb
            exact absurd hge (by simp [not_le.mpr hlt])
        · intro h0
          rw [h0] at hbt
          simp [pyTruthy] at hbt
      · rw [if_neg hlt]
        refine ⟨?_, ?_, ?_⟩
        · rw [assertsTypeSev_append, assertsTypeSev_append, assertsTypeSev_append,
            hF.1, hT.1, hA.1]
          simp only [assertsTypeSev, List.any_cons, List.any_nil, opAssertsTypeSev]
          constructor
          · intro hc
            exact absurd hc (by simp)
          · rintro ⟨b', hb', _, hblt⟩
            injection hb' with hbb
            subst hbb
            exact absurd hblt hlt
        · rw [clearsType_append, clearsType_append, clearsType_append,
            hF.2.2, hT.2.2, hA.2.2]
          simp only [clearsType, List.any_cons, List.any_nil, opClearsType]
          constructor
          · intro _
            exact ⟨b, rfl, hbt, not_lt.mp hlt⟩
          · intro _
            simp
        · intro h0
          rw [h0] at hbt
          simp [pyTruthy] at hbt
  · have hbf : pyTruthy (pyGet telemetry "battery_level") = false := Bool.eq_false_iff.mpr hbt
    rw [batteryAccessOps_of_falsy telemetry pk sys hbf]
    refine ⟨?_, ?_, ?_⟩
    · rw [assertsTypeSev_append, assertsTypeSev_append, hF.1, hT.1, hA.1]
      constructor
      · intro hc
        exact absurd hc (by simp)
      · rintro ⟨b, _, hbtr, _⟩
        exact absurd hbtr hbt
    · rw [clearsType_append, clearsType_append, hF.2.2, hT.2.2, hA.2.2]
      constructor
      · intro hc
        exact absurd hc (by simp)
      · rintro ⟨b, _, hbtr, _⟩
        exact absurd hbtr hbt
    · intro _
      rw [mentionsType, assertsType_append, assertsType_append, clearsType_append,
        clearsType_append, hF.2.1, hT.2.1, hA.2.1, hF.2.2, hT.2.2, hA.2.2]
      rfl

/-- Claim C6 — witness: level 10 asserts LOW_BATTERY, level 50 clears
it, and level exactly 0 neither asserts nor clears. -/
theorem battery_rule_characterization_witness :
    assertsTypeSev (checkAndCreateAlerts [("battery_level", Value.num 10)]
        (Value.str "factory_1") (Value.str "Battery_System")) "LOW_BATTERY" "WARNING" = true ∧
    clearsType (checkAndCreateAlerts [("battery_level", Value.num 50)]
        (Value.str "factory_1") (Value.str "Battery_System")) "LOW_BATTERY" = true ∧
    mentionsType (checkAndCreateAlerts [("battery_level", Value.num 0)]
        (Value.str "factory_1") (Value.str "Battery_System")) "LOW_BATTERY" = false :=
  ⟨(battery_rule_characterization [("battery_level", Value.num 10)] (Value.str "factory_1")
      (Value.str "Battery_System") 1 (by decide)).1.mpr ⟨10, by decide, by decide, by decide⟩,
   (battery_rule_characterization [("battery_level", Value.num 50)] (Value.str "factory_1")
      (Value.str "Battery_System") 1 (by decide)).2.1.mpr ⟨50, by decide, by decide, by decide⟩,
   (battery_rule_characterization [("battery_level", Value.num 0)] (Value.str "factory_1")
      (Value.str "Battery_System") 1 (by decide)).2.2 rfl⟩

/-- Reduction of the access block on a denied access log. -/
theorem accessOps_of_denied (tel : Bag) (pk : Nat) (sys : Value)
    (h : pyEqVal (pyGet tel "access_log") (Value.str "DENIED") = true) :
    accessOps tel pk sys =
      [StoreOp.insertAlways pk "UNAUTHORIZED_ACCESS" "WARNING"
        (Msg.unauthorized (pyGetD tel "rfid_last_card" (Value.str "Unknown"))) sys] := by
  unfold accessOps
  rw [if_pos h]

/-- Reconciling an Assert for one alert type never changes the row count
of a different type. -/
theorem typeRowCount_createUnique_of_ne (s : AlertStore) (now pk' : Nat) (t' sev : String)
    (m : Msg) (sys' : Value) (pk : Nat) (sys : Value) (t : String) (h : t' ≠ t) :
    typeRowCount (createUniqueAlert s now pk' t' sev m sys') pk sys t
      = typeRowCount s pk sys t := by
  cases hf : s.rows.filter (matchesOpen pk' sys' t') with
  | nil =>
    rw [createUnique_of_none s now pk' t' sev m sys' hf]
    unfold typeRowCount insertAlert
    rw [List.filter_append, List.length_append]
    simp [h]
  | cons r rest =>
    rw [createUnique_of_head s now pk' t' sev m sys' r rest hf]
    by_cases hne : r.message ≠ m
    · rw [if_pos hne]
      unfold typeRowCount
      show ((s.rows.map _).filter _).length = _
      rw [length_filter_map_eq]
      intro x
      by_cases hx : x.id = r.id
      · rw [if_pos hx]
      · rw [if_neg hx]
    · rw [if_neg hne]

/-- Auto-acknowledging never changes any type's row count (it only flips
the acknowledged flag). -/
theorem typeRowCount_autoAck (s : AlertStore) (now pk' : Nat) (sys' : Value) (t' : String)
    (pk : Nat) (sys : Value) (t : String) :
    typeRowCount (autoAcknowledgeAlert s now pk' sys' t') pk sys t
      = typeRowCount s pk sys t := by
  unfold typeRowCount autoAcknowledgeAlert
  show ((s.rows.map _).filter _).length = _
  rw [length_filter_map_eq]
  intro x
  by_cases hx : matchesOpen pk' sys' t' x = true
  · rw [if_pos hx]
  · rw [if_neg hx]

/-- An unconditional insert adds exactly one row of its own tuple. -/
theorem typeRowCount_insert_same (s : AlertStore) (now pk : Nat) (t sev : String)
    (m : Msg) (sys : Value) :
    typeRowCount (insertAlert s now pk t sev m sys) pk sys t
      = typeRowCount s pk sys t + 1 := by
  unfold typeRowCount insertAlert
  rw [List.filter_append, List.length_append]
  simp

/-- A store operation naming another type preserves this type's row
count. -/
theorem typeRowCount_applyOp_of_ne (s : AlertStore) (now : Nat) (op : StoreOp)
    (pk : Nat) (sys : Value) (t : String) (h : opType op ≠ t) :
    typeRowCount (applyOp s now op) pk sys t = typeRowCount s pk sys t := by
  cases op with
  | createUnique pk' t' sev m sys' =>
    exact typeRowCount_createUnique_of_ne s now pk' t' sev m sys' pk sys t h
  | autoAck pk' sys' t' => exact typeRowCount_autoAck s now pk' sys' t' pk sys t
  | insertAlways pk' t' sev m sys' =>
    show typeRowCount (insertAlert s now pk' t' sev m sys') pk sys t = _
    unfold typeRowCount insertAlert
    rw [List.filter_append, List.length_append]
    simp only [opType] at h
    simp [h]

/-- Executing a concatenated trace is executing its halves in turn. -/
theorem applyOps_append (s : AlertStore) (now : Nat) (a b : List StoreOp) :
    applyOps s now (a ++ b) = applyOps (applyOps s now a) now b := by
  induction a generalizing s with
  | nil => rfl
  | cons op rest ih => exact ih (applyOp s now op)

/-- A trace naming only other types preserves this type's row count. -/
theorem typeRowCount_applyOps_of_ne (ops : List StoreOp) (s : AlertStore) (now pk : Nat)
    (sys : Value) (t : String) (h : ∀ op ∈ ops, opType op ≠ t) :
    typeRowCount (applyOps s now ops) pk sys t = typeRowCount s pk sys t := by
  induction ops generalizing s with
  | nil => rfl
  | cons op rest ih =>
    show typeRowCount (applyOps (applyOp s now op) now rest) pk sys t = _
    rw [ih (applyOp s now op) (fun o ho => h o (List.mem_cons_of_mem _ ho)),
      typeRowCount_applyOp_of_ne s now op pk sys t (h op (List.mem_cons_self _ _))]

/-- One pass of a trace that ends in an UNAUTHORIZED_ACCESS insert and
otherwise names other types adds exactly one UNAUTHORIZED_ACCESS row. -/
theorem typeRowCount_pass (s : AlertStore) (now pk : Nat) (sys : Value) (sev : String)
    (m : Msg) (pre : List StoreOp)
    (hpre : ∀ op ∈ pre, opType op ≠ "UNAUTHORIZED_ACCESS") :
    typeRowCount (applyOps s now
        (pre ++ [StoreOp.insertAlways pk "UNAUTHORIZED_ACCESS" sev m sys]))
        pk sys "UNAUTHORIZED_ACCESS"
      = typeRowCount s pk sys "UNAUTHORIZED_ACCESS" + 1 := by
  rw [applyOps_append]
  show typeRowCount (insertAlert (applyOps s now pre) now pk "UNAUTHORIZED_ACCESS" sev m sys)
      pk sys "UNAUTHORIZED_ACCESS" = _
  rw [typeRowCount_insert_same, typeRowCount_applyOps_of_ne pre s now pk sys _ hpre]

/-- Claim C7: a telemetry record whose access log equals "DENIED" makes
the rule engine emit exactly the unconditional UNAUTHORIZED_ACCESS
(WARNING) insert — the only operation in the trace naming that type is
an `insertAlways`, never a deduplicating lookup-insert or a clear — so
replaying the same denied event twice adds two distinct alert rows for
the (factory, subsystem) pair.  (The battery hypothesis records that the
battery block did not abort the method with a `TypeError`, which is the
case for every record the mapper produces: no subsystem maps both an
access log and a battery level.) -/
theorem unauthorized_access_no_dedup (telemetry : Bag) (fid sys : Value) (pk : Nat)
    (s : AlertStore) (now1 now2 : Nat)
    (h : factoryLookupPk fid = some pk)
    (hacc : pyEqVal (pyGet telemetry "access_log") (Value.str "DENIED") = true)
    (hbat : pyTruthy (pyGet telemetry "battery_level") = false ∨
      (∃ b, pyNum (pyGet telemetry "battery_level") = some b)) :
    assertsTypeSev (checkAndCreateAlerts telemetry fid sys) "UNAUTHORIZED_ACCESS" "WARNING"
        = true ∧
    clearsType (checkAndCreateAlerts telemetry fid sys) "UNAUTHORIZED_ACCESS" = false ∧
    (∀ op ∈ checkAndCreateAlerts telemetry fid sys, opType op = "UNAUTHORIZED_ACCESS" →
      op = StoreOp.insertAlways pk "UNAUTHORIZED_ACCESS" "WARNING"
            (Msg.unauthorized (pyGetD telemetry "rfid_last_card" (Value.str "Unknown"))) sys) ∧
    typeRowCount (applyOps (applyOps s now1 (checkAndCreateAlerts telemetry fid sys)) now2
        (checkAndCreateAlerts telemetry fid sys)) pk sys "UNAUTHORIZED_ACCESS"
      = typeRowCount s pk sys "UNAUTHORIZED_ACCESS" + 2 := by
  obtain ⟨pre, hshape, hpre⟩ :
      ∃ pre, checkAndCreateAlerts telemetry fid sys
          = pre ++ [StoreOp.insertAlways pk "UNAUTHORIZED_ACCESS" "WARNING"
              (Msg.unauthorized (pyGetD telemetry "rfid_last_card" (Value.str "Unknown"))) sys] ∧
        ∀ op ∈ pre, opType op ≠ "UNAUTHORIZED_ACCESS" := by
    by_cases hbt : pyTruthy (pyGet telemetry "battery_level") = true
    · have hnum : ∃ b, pyNum (pyGet telemetry "battery_level") = some b := by
        rcases hbat with hbf | hb
        · rw [hbt] at hbf
          exact Bool.noConfusion hbf
        · exact hb
      obtain ⟨b, hb⟩ := hnum
      refine ⟨fireOps telemetry pk sys ++ tempOps telemetry pk sys ++
        (if b < ALERT_THRESHOLDS.battery_low then
          [StoreOp.createUnique pk "LOW_BATTERY" "WARNING"
            (Msg.lowBattery b (pyGetD telemetry "led_brightness" (Value.str "N/A"))) sys]
        else [StoreOp.autoAck pk sys "LOW_BATTERY"]), ?_, ?_⟩
      · rw [checkAlerts_of_pk telemetry fid sys pk h,
          batteryAccessOps_of_num telemetry pk sys b hbt hb,
          accessOps_of_denied telemetry pk sys hacc, ← List.append_assoc]
      · intro op hop
        rcases List.mem_append.mp hop with h1 | h1
        · rcases List.mem_append.mp h1 with h2 | h2
          · simp [fireOps_types telemetry pk sys op h2]
          · rcases tempOps_types telemetry pk sys op h2 with h3 | h3 <;> simp [h3]
        · split at h1 <;> simp only [List.mem_singleton] at h1 <;> subst h1 <;> simp [opType]
    · have hbf : pyTruthy (pyGet telemetry "battery_level") = false :=
        Bool.eq_false_iff.mpr hbt
      refine ⟨fireOps telemetry pk sys ++ tempOps telemetry pk sys, ?_, ?_⟩
      · rw [checkAlerts_of_pk telemetry fid sys pk h,
          batteryAccessOps_of_falsy telemetry pk sys hbf,
          accessOps_of_denied telemetry pk sys hacc]
      · intro op hop
        rcases List.mem_append.mp hop with h1 | h1
        · simp [fireOps_types telemetry pk sys op h1]
        · rcases tempOps_types telemetry pk sys op h1 with h3 | h3 <;> simp [h3]
  refine ⟨?_, ?_, ?_, ?_⟩
  · rw [hshape, assertsTypeSev_append, assertsTypeSev_eq_false _ _ _ hpre]
    simp [assertsTypeSev, opAssertsTypeSev]
  · rw [hshape, clearsType_append, clearsType_eq_false _ _ hpre]
    simp [clearsType, opClearsType]
  · intro op hop hty
    rw [hshape] at hop
    rcases List.mem_append.mp hop with h1 | h1
    · exact absurd hty (hpre op h1)
    · simpa using h1
  · rw [hshape, typeRowCount_pass _ now2 pk sys _ _ pre hpre,
      typeRowCount_pass s now1 pk sys _ _ pre hpre]

/-- Claim C7 — witness: two replays of a denied Safe_Room event against
the empty store leave two UNAUTHORIZED_ACCESS rows. -/
theorem unauthorized_access_no_dedup_witness :
    typeRowCount (applyOps (applyOps emptyStore 1
        (checkAndCreateAlerts [("access_log", Value.str "DENIED"),
          ("rfid_last_card", Value.str "X1")] (Value.str "factory_1") (Value.str "Safe_Room")))
        2 (checkAndCreateAlerts [("access_log", Value.str "DENIED"),
          ("rfid_last_card", Value.str "X1")] (Value.str "factory_1") (Value.str "Safe_Room")))
        1 (Value.str "Safe_Room") "UNAUTHORIZED_ACCESS"
      = typeRowCount emptyStore 1 (Value.str "Safe_Room") "UNAUTHORIZED_ACCESS" + 2 :=
  (unauthorized_access_no_dedup
    [("access_log", Value.str "DENIED"), ("rfid_last_card", Value.str "X1")]
    (Value.str "factory_1") (Value.str "Safe_Room") 1 emptyStore 1 2
    (by decide) (by decide) (Or.inl (by decide))).2.2.2

end RuleEngineTheorems

end SmartFactory
